import Mathlib

/-!
Shallow embedding of the MorphShop backend pipeline orchestrator and
remote-job polling state machine, translated from
src/backend/app/services/runninghub/models.py,
src/backend/app/services/runninghub/client.py,
src/backend/app/api/projects.py and src/backend/app/api/tasks.py.

Python conventions are made explicit: optional values are Option, Python
truthiness of strings and ids is modelled by truthyStr and truthyId
(None and the empty string, resp. None and 0, are falsy), and functions
that can raise HTTPException or ValueError return Except String.
-/

namespace MorphShop

/-- Python truthiness of an optional string: None and the empty string are falsy. -/
def truthyStr : Option String → Bool
  | none => false
  | some s => !s.isEmpty

/-- Python truthiness of an optional integer id: None and 0 are falsy. -/
def truthyId : Option Nat → Bool
  | none => false
  | some n => n != 0

/-- Python fallback a or b on optional strings. -/
def pyOrStr (a b : Option String) : Option String :=
  if truthyStr a then a else b

/-- Python fallback a or d where d is a plain string default. -/
def pyOrStrD (a : Option String) (d : String) : String :=
  match a with
  | some s => if s.isEmpty then d else s
  | none => d

/-- Python fallback a or b on optional ids. -/
def pyOrId (a b : Option Nat) : Option Nat :=
  if truthyId a then a else b

/-- Python x or None applied to an optional string (empty string collapses to None). -/
def pyStrOrNone (a : Option String) : Option String :=
  if truthyStr a then a else none

/-- Python str.lower, as a kernel-computable map over the characters. -/
def pyLower (s : String) : String := ⟨s.data.map Char.toLower⟩

/-- Python str.strip, as a kernel-computable whitespace trim. -/
def pyStrip (s : String) : String :=
  ⟨((s.data.dropWhile Char.isWhitespace).reverse.dropWhile Char.isWhitespace).reverse⟩

/-- One output item of a RunningHub status payload.  The source reads the
keys url and fileUrl of a raw dict; a key that is absent or null is
modelled as none (models.py, TaskStatusResponse.result_url). -/
structure OutputItem where
  url : Option String := none
  fileUrl : Option String := none
deriving DecidableEq

/-- The exception information nested under failedReason in a Format 1a
payload; none models an absent or empty (falsy) dict. -/
structure FailedReason where
  exception_type : Option String := none
deriving DecidableEq

/-- The data field of a Format 1 payload: either a dict (Format 1a, keys
outputs, progress, failedReason) or a list of raw output items (Format 1b).
An absent key of the dict is none. -/
inductive RHData where
  | dict (outputs : Option (List OutputItem)) (progress : Option Int)
      (failedReason : Option FailedReason)
  | list (items : List OutputItem)
deriving DecidableEq

/-- Python truthiness of the data field: None, an empty list and an empty
dict are falsy (a dict is empty when none of its modelled keys is stored). -/
def dataTruthy : Option RHData → Bool
  | none => false
  | some (.list items) => !items.isEmpty
  | some (.dict outputs progress failedReason) =>
      outputs.isSome || progress.isSome || failedReason.isSome

/-- Response from the task status API (models.py, TaskStatusResponse):
Format 1 fields code, msg, data and Format 2 fields taskId, status,
results, errorMessage, progress. -/
structure TaskStatusResponse where
  code : Option Int := none
  msg : Option String := none
  data : Option RHData := none
  task_id : Option String := none
  status_field : Option String := none
  results : Option (List OutputItem) := none
  error_msg : Option String := none
  progress_field : Option Int := none
deriving DecidableEq

namespace TaskStatusResponse

/-- Check if the response is in format 2 (has taskId or status field). -/
def _is_format2 (r : TaskStatusResponse) : Bool :=
  r.task_id.isSome || r.status_field.isSome

/-- Property success of TaskStatusResponse. -/
def success (r : TaskStatusResponse) : Bool :=
  if r._is_format2 then r.status_field == some "SUCCESS"
  else r.code == some 0

/-- Property is_running of TaskStatusResponse. -/
def is_running (r : TaskStatusResponse) : Bool :=
  if r._is_format2 then
    r.status_field == some "RUNNING" || r.status_field == some "QUEUED"
      || r.status_field == none
  else if r.code == none && r.msg == none then true
  else r.code == some 804 || r.msg == some "TASK_RUNNING"

/-- Property is_failed of TaskStatusResponse. -/
def is_failed (r : TaskStatusResponse) : Bool :=
  if r._is_format2 then
    r.status_field == some "FAILED" || truthyStr r.error_msg
  else r.code == some 805 || r.msg == some "APIKEY_TASK_STATUS_ERROR"

/-- Property status of TaskStatusResponse: the canonical status string. -/
def status (r : TaskStatusResponse) : String :=
  if r._is_format2 then
    if r.status_field == some "SUCCESS" then "SUCCESS"
    else if r.status_field == some "FAILED" || truthyStr r.error_msg then "FAILED"
    else if r.status_field == some "RUNNING" || r.status_field == some "QUEUED" then "RUNNING"
    else "RUNNING"
  else if r.success then "SUCCESS"
  else if r.is_failed then "FAILED"
  else if r.is_running then "RUNNING"
  else "UNKNOWN"

/-- Property outputs of TaskStatusResponse. -/
def outputs (r : TaskStatusResponse) : List OutputItem :=
  if r._is_format2 then r.results.getD []
  else if dataTruthy r.data then
    match r.data with
    | some (.list items) => items
    | some (.dict outs _ _) => outs.getD []
    | none => []
  else []

end TaskStatusResponse

/-- The result-URL scan of TaskStatusResponse.result_url: walk the output
items in order; the first item with a present, truthy url wins, else the
first present, truthy fileUrl of that item, else move to the next item. -/
def resultUrlFromOutputs : List OutputItem → Option String
  | [] => none
  | o :: rest =>
    if truthyStr o.url then o.url
    else if truthyStr o.fileUrl then o.fileUrl
    else resultUrlFromOutputs rest

/-- Property result_url of TaskStatusResponse. -/
def TaskStatusResponse.result_url (r : TaskStatusResponse) : Option String :=
  resultUrlFromOutputs r.outputs

/-- Property error_message of TaskStatusResponse. -/
def TaskStatusResponse.error_message (r : TaskStatusResponse) : Option String :=
  if r._is_format2 then r.error_msg
  else
    match r.data with
    | some (.dict outs progress (some fr)) =>
        if dataTruthy (some (.dict outs progress (some fr))) then
          match fr.exception_type with
          | some e => some e
          | none => r.msg
        else if r.is_failed then r.msg else none
    | _ => if r.is_failed then r.msg else none

/-- The RunningHub webhook payload (tasks.py, runninghub_webhook): raw JSON
keys taskId, status, outputs, results, errorMsg. -/
structure WebhookPayload where
  taskId : Option String := none
  status : Option String := none
  outputs : Option (List OutputItem) := none
  results : Option (List OutputItem) := none
  errorMsg : Option String := none

/-- Python fallback a or b on an optional list (an empty list is falsy). -/
def pyOrList (a : Option (List OutputItem)) (b : List OutputItem) : List OutputItem :=
  match a with
  | some l => if l.isEmpty then b else l
  | none => b

/-- The output list the webhook success branch reads:
data.get("outputs") or data.get("results") or [] (tasks.py line 645). -/
def webhookOutputs (w : WebhookPayload) : List OutputItem :=
  pyOrList w.outputs (pyOrList w.results [])

/-- The result URL the webhook success branch records (tasks.py line 647):
outputs[0].get("fileUrl") or outputs[0].get("url") or task.result_url,
and the previous value when the output list is empty/falsy. -/
def webhookNewResultUrl (w : WebhookPayload) (prev : Option String) : Option String :=
  match webhookOutputs w with
  | [] => prev
  | o :: _ => pyOrStr o.fileUrl (pyOrStr o.url prev)

/-- Project status enumeration (models/project.py, ProjectStatus). -/
inductive ProjStatus where
  | draft
  | processing
  | completed
  | failed
deriving DecidableEq

/-- The Project fields the orchestrator reads and writes (models/project.py).
workflow_steps holds the JSON-parsed stored order (none models an absent or
unparsable value, exactly the inputs on which _parse_steps returns None). -/
structure Project where
  status : ProjStatus := .draft
  enable_try_on : Bool := false
  enable_background : Bool := false
  enable_video : Bool := false
  workflow_steps : Option (List String) := none
  background_person_source : Option String := none
  try_on_person_source : Option String := none
  video_person_source : Option String := none
  model_image_id : Option Nat := none
  clothing_image_id : Option Nat := none
  background_image_id : Option Nat := none
  try_on_result_id : Option Nat := none
  background_result_id : Option Nat := none
  video_result_id : Option Nat := none
  pipeline_active : Bool := false
  pipeline_cancel_requested : Bool := false
  pipeline_chain : Bool := true
  pipeline_start_step : Option String := none
  pipeline_current_step : Option String := none
  pipeline_last_error : Option String := none
deriving DecidableEq

/-- Canonical base order of the workflow steps (projects.py line 22). -/
def _BASE_STEP_ORDER : List String := ["try_on", "background", "video"]

/-- Output type of each step (projects.py line 23); none models a key
absent from the dict. -/
def _STEP_OUTPUT_TYPE (s : String) : Option String :=
  if s = "try_on" then some "image"
  else if s = "background" then some "image"
  else if s = "video" then some "video"
  else none

/-- Person-input type required by each step (projects.py line 28). -/
def _STEP_PERSON_INPUT_TYPE (s : String) : Option String :=
  if s = "try_on" then some "image"
  else if s = "background" then some "image"
  else if s = "video" then some "image"
  else none

/-- Combined test s in enabled and enabled[s] of projects.py: the enabled
dict has exactly the keys try_on, background, video, so a non-key is false. -/
def enabledFor (p : Project) (s : String) : Bool :=
  if s = "try_on" then p.enable_try_on
  else if s = "background" then p.enable_background
  else if s = "video" then p.enable_video
  else false

/-- Function _default_steps_for_project of projects.py. -/
def _default_steps_for_project (p : Project) : List String :=
  _BASE_STEP_ORDER.filter (fun s => enabledFor p s)

/-- The first loop of _steps_for_project: walk the configured list keeping
enabled steps not seen yet (seen accumulates exactly the kept steps). -/
def configLoop (en : String → Bool) : List String → List String → List String
  | _seen, [] => []
  | seen, s :: rest =>
    if en s = true ∧ s ∉ seen then s :: configLoop en (s :: seen) rest
    else configLoop en seen rest

/-- Function _steps_for_project of projects.py: the configured workflow
order filtered to enabled steps, with newly enabled steps not present in
the stored order appended in canonical order.  A falsy configured value
(none or the empty list) falls back to the defaults. -/
def _steps_for_project (p : Project) : List String :=
  match p.workflow_steps with
  | none => _default_steps_for_project p
  | some [] => _default_steps_for_project p
  | some configured =>
    let out := configLoop (enabledFor p) [] configured
    out ++ _BASE_STEP_ORDER.filter (fun s => enabledFor p s ∧ s ∉ out)

/-- Function _result_id_for_step of projects.py. -/
def _result_id_for_step (p : Project) (step : String) : Option Nat :=
  if step = "try_on" then p.try_on_result_id
  else if step = "background" then p.background_result_id
  else if step = "video" then p.video_result_id
  else none

/-- The backward scan of _find_upstream_result_id: skip steps whose output
type mismatches, return the first truthy result id, else keep scanning. -/
def scanUpstream (p : Project) (input_type : String) : List String → Option Nat
  | [] => none
  | prev :: rest =>
    if _STEP_OUTPUT_TYPE prev ≠ some input_type then scanUpstream p input_type rest
    else if truthyId (_result_id_for_step p prev) then _result_id_for_step p prev
    else scanUpstream p input_type rest

/-- Function _find_upstream_result_id of projects.py: scan backward from
the index of the step over the preceding steps. -/
def _find_upstream_result_id (p : Project) (steps : List String) (step : String) : Option Nat :=
  match _STEP_PERSON_INPUT_TYPE step with
  | none => none
  | some input_type =>
    if step ∈ steps then
      scanUpstream p input_type ((steps.take (steps.indexOf step)).reverse)
    else none

/-- Function _has_upstream_step of projects.py. -/
def _has_upstream_step (steps : List String) (step : String) : Bool :=
  match _STEP_PERSON_INPUT_TYPE step with
  | none => false
  | some input_type =>
    if step ∈ steps then
      ((steps.take (steps.indexOf step)).reverse).any
        (fun prev => _STEP_OUTPUT_TYPE prev == some input_type)
    else false

/-- Function _normalize_person_source of projects.py; an invalid mode
raises HTTPException, modelled as Except.error. -/
def _normalize_person_source (value : Option String) : Except String (Option String) :=
  match value with
  | none => Except.ok none
  | some value =>
    let v := pyLower (pyStrip value)
    if v.isEmpty then Except.ok none
    else if v = "upstream" ∨ v = "model_image" then Except.ok (some v)
    else Except.error "Invalid person source mode."

/-- The mode computation inlined in _resolve_person_source_id of
projects.py (the step dispatch of lines 135-143). -/
def personSourceMode (p : Project) (step : String) : Except String (Option String) :=
  if step = "background" then
    let raw := pyLower (pyOrStrD p.background_person_source "try_on_result")
    Except.ok (some (if raw = "model_image" then "model_image" else "upstream"))
  else if step = "try_on" then _normalize_person_source (pyStrOrNone p.try_on_person_source)
  else if step = "video" then _normalize_person_source (pyStrOrNone p.video_person_source)
  else Except.ok none

/-- Function _resolve_person_source_id of projects.py: resolve the person
image source for a step based on user preference. -/
def _resolve_person_source_id (p : Project) (steps : List String) (step : String) :
    Except String (Option Nat) :=
  let upstream_id := _find_upstream_result_id p steps step
  let has_upstream := _has_upstream_step steps step
  match personSourceMode p step with
  | Except.error e => Except.error e
  | Except.ok mode =>
    if mode = some "model_image" then Except.ok p.model_image_id
    else if mode = some "upstream" then
      Except.ok (if has_upstream then upstream_id else p.model_image_id)
    else Except.ok (pyOrId upstream_id p.model_image_id)

/-- Observable outcome of one background pipeline run: the Project fields
_run_project_pipeline writes plus the list of steps for which a job (Task
row) was created. -/
structure PipeOutcome where
  status : ProjStatus
  pipeline_active : Bool
  pipeline_current_step : Option String
  pipeline_last_error : Option String
  jobs : List String
deriving DecidableEq

/-- The step loop of _run_project_pipeline (projects.py lines 475-533).
The project is reloaded before each step; cancelAt i is the
pipeline_cancel_requested value seen at the reload before the i-th step of
the run list.  exec abstracts task creation plus submit_and_poll_task for
one step: Except.error models a raised ValueError (raised before the Task
row is created), Except.ok a step that ran (its job was created; the loop
does not check the final job status).  The video branch stops the
pipeline as Completed with a descriptive error.  lastErr is the
pre-existing pipeline_last_error (the loop leaves it unchanged except in
the video and exception branches). -/
def pipelineLoop (cancelAt : Nat → Bool) (exec : String → Except String Unit)
    (lastErr : Option String) : List String → Nat → List String → PipeOutcome
  | [], _i, jobs =>
      { status := .completed, pipeline_active := false, pipeline_current_step := none,
        pipeline_last_error := lastErr, jobs := jobs }
  | step :: rest, i, jobs =>
    if cancelAt i then
      { status := .draft, pipeline_active := false, pipeline_current_step := none,
        pipeline_last_error := lastErr, jobs := jobs }
    else if step = "video" then
      { status := .completed, pipeline_active := false, pipeline_current_step := none,
        pipeline_last_error :=
          some "Video module is not integrated yet. Pipeline stopped after previous step.",
        jobs := jobs }
    else
      match exec step with
      | Except.error e =>
          { status := .failed, pipeline_active := false, pipeline_current_step := none,
            pipeline_last_error := some e, jobs := jobs }
      | Except.ok _ => pipelineLoop cancelAt exec lastErr rest (i + 1) (jobs ++ [step])

/-- Function _run_project_pipeline of projects.py: compute the run list
from the stored start step and chain flag, then drive the step loop. -/
def _run_project_pipeline (p : Project) (cancelAt : Nat → Bool)
    (exec : String → Except String Unit) : PipeOutcome :=
  let steps := _steps_for_project p
  let start := pyOrStr p.pipeline_start_step steps.head?
  match start with
  | none =>
      { status := .failed, pipeline_active := false, pipeline_current_step := none,
        pipeline_last_error := some "No enabled workflow steps to run.", jobs := [] }
  | some s =>
    if s ∉ steps then
      { status := .failed, pipeline_active := false, pipeline_current_step := none,
        pipeline_last_error := some "No enabled workflow steps to run.", jobs := [] }
    else
      let run_steps := if p.pipeline_chain then steps.drop (steps.indexOf s) else [s]
      pipelineLoop cancelAt exec p.pipeline_last_error run_steps 0 []

/-- The run-state writes of the cancel_pipeline endpoint (projects.py
lines 628-658): the cancel flag is set unconditionally. -/
def cancel_pipeline (p : Project) : Project :=
  { p with pipeline_cancel_requested := true }

/-- The run-state writes of a successful start_pipeline call (projects.py
lines 612-620). -/
def start_pipeline_marks (p : Project) (chain : Bool) (step : String) : Project :=
  { p with pipeline_active := true, pipeline_cancel_requested := false,
           pipeline_chain := chain, pipeline_start_step := some step,
           pipeline_current_step := none, pipeline_last_error := none,
           status := .processing }

/-- Task status enumeration (models/task.py, TaskStatus). -/
inductive JobStatus where
  | pending
  | queued
  | running
  | success
  | failed
deriving DecidableEq

/-- The Task fields submit_and_poll_task reads and writes (models/task.py). -/
structure TaskRec where
  status : JobStatus := .pending
  runninghub_task_id : Option String := none
  progress_percent : Nat := 0
  result_url : Option String := none
  error_message : Option String := none
deriving DecidableEq

/-- Response from the task creation API (models.py, TaskCreateResponse). -/
structure TaskCreateResponse where
  task_id : Option String := none
  create_status : Option String := none
  error_message : Option String := none
  client_id : Option String := none
deriving DecidableEq

/-- Property success of TaskCreateResponse: a truthy task id and a remote
status in the accepted set. -/
def TaskCreateResponse.success (r : TaskCreateResponse) : Bool :=
  truthyStr r.task_id &&
    (r.create_status == some "RUNNING" || r.create_status == some "QUEUED"
      || r.create_status == some "SUCCESS")

/-- Success statuses recognised by wait_for_completion (client.py line 203). -/
def isSuccessStatusStr (s : String) : Bool :=
  s == "SUCCESS" || s == "COMPLETED" || s == "FINISH"

/-- Failure statuses recognised by wait_for_completion (client.py line 205). -/
def isFailedStatusStr (s : String) : Bool :=
  s == "FAILED" || s == "ERROR" || s == "CANCELLED" || s == "FAIL"

/-- Number of poll iterations the while loop of wait_for_completion makes
before timing out: the count of k with k * poll_interval < timeout
(elapsed starts at 0 and grows by poll_interval per iteration).  Defined
for a positive poll_interval, matching the source default of 3 seconds. -/
def pollIterations (poll_interval timeout : Nat) : Nat :=
  (timeout + poll_interval - 1) / poll_interval

/-- Remote API interactions performed by submit_and_poll_task, recorded as
an effect trace. -/
inductive RemoteCall where
  | upload (filename : String)
  | createTask
  | pollStatus (i : Nat)
  | cancelTask (task_id : String)
deriving DecidableEq

/-- Whether a remote call is a cancel request. -/
def RemoteCall.isCancel : RemoteCall → Bool
  | .cancelTask _ => true
  | _ => false

/-- Outcome of wait_for_completion: the terminal response, or the
TimeoutError raised when the timeout elapses first. -/
inductive PollOutcome where
  | done (r : TaskStatusResponse)
  | timedOut
deriving DecidableEq

/-- The polling loop of RunningHubClient.wait_for_completion (client.py
lines 186-211), with the remaining iteration budget as fuel and the trace
of status polls issued.  poll i is the response of the i-th status call;
a status outside both terminal sets (including UNKNOWN) keeps polling. -/
def waitTrace (poll : Nat → TaskStatusResponse) :
    Nat → Nat → PollOutcome × List RemoteCall
  | 0, _i => (.timedOut, [])
  | fuel + 1, i =>
    let r := poll i
    if isSuccessStatusStr r.status || isFailedStatusStr r.status then
      (.done r, [RemoteCall.pollStatus i])
    else
      let rest := waitTrace poll fuel (i + 1)
      (rest.1, RemoteCall.pollStatus i :: rest.2)

/-- Method RunningHubClient.wait_for_completion as a pure outcome. -/
def wait_for_completion (poll : Nat → TaskStatusResponse)
    (poll_interval timeout : Nat) : PollOutcome :=
  (waitTrace poll (pollIterations poll_interval timeout) 0).1

/-- Environment of one submit_and_poll_task execution: the input asset
filenames of the step, the remote upload results per filename, the task
creation response and the status poll responses. -/
structure SubmitEnv where
  inputs : List String
  uploadResult : String → Option String
  createResp : TaskCreateResponse
  poll : Nat → TaskStatusResponse

/-- Function submit_and_poll_task of tasks.py (lines 343-616) as a pure
state transformer with an effect trace.  The guard of lines 362-366 comes
first: a missing task or a task whose status is not PENDING returns with
no state change and no remote call.  The body models the common shape of
the three task-type branches: mark QUEUED, upload the inputs (any falsy
upload result fails the job), create the remote task (a non-success
response fails the job with its error message or a default), mark RUNNING
and record the remote task id, then poll via wait_for_completion with
poll_interval 3 and the given timeout; a terminal SUCCESS records the
result URL and full progress, a terminal failure records the normalized
error message, and a TimeoutError marks the job Failed with the fixed
message without issuing any remote cancel (the except TimeoutError branch
of lines 606-610 performs no cancel call).  Database persistence and
result-asset creation are outside the model. -/
def submit_and_poll (t : Option TaskRec) (env : SubmitEnv) (timeout : Nat) :
    Option TaskRec × List RemoteCall :=
  match t with
  | none => (none, [])
  | some task =>
    if task.status ≠ JobStatus.pending then (some task, [])
    else
      let task := { task with status := JobStatus.queued }
      let uploadCalls := env.inputs.map RemoteCall.upload
      if env.inputs.any (fun f => !truthyStr (env.uploadResult f)) then
        (some { task with
                  status := .failed,
                  error_message := some "Failed to upload images to RunningHub" },
         uploadCalls)
      else
        let calls := uploadCalls ++ [RemoteCall.createTask]
        if !env.createResp.success then
          (some { task with
                    status := .failed,
                    error_message := some (pyOrStrD env.createResp.error_message "Task creation failed") },
           calls)
        else
          let task := { task with
                          runninghub_task_id := env.createResp.task_id,
                          status := JobStatus.running }
          match waitTrace env.poll (pollIterations 3 timeout) 0 with
          | (.done r, pollCalls) =>
            if r.status = "SUCCESS" then
              (some { task with
                        status := .success,
                        result_url := r.result_url,
                        progress_percent := 100 },
               calls ++ pollCalls)
            else
              (some { task with
                        status := .failed,
                        error_message := some (pyOrStrD r.error_message "Task failed") },
               calls ++ pollCalls)
          | (.timedOut, pollCalls) =>
            (some { task with
                      status := .failed,
                      error_message := some "Timeout failed (1h)" },
             calls ++ pollCalls)

/-- Format 2 payload with status SUCCESS and a non-empty errorMessage. -/
def exC1resp : TaskStatusResponse :=
  { task_id := some "t", status_field := some "SUCCESS", error_msg := some "boom" }

/-- Format 2 payload with status RUNNING and a non-empty errorMessage. -/
def exC1respRunning : TaskStatusResponse :=
  { task_id := some "t", status_field := some "RUNNING", error_msg := some "boom" }

/-- Project in upstream person-source mode for the background step whose
try-on step has produced no result yet, while a base asset exists. -/
def exC2proj : Project :=
  { model_image_id := some 5, background_person_source := some "try_on_result" }

/-- Project in upstream person-source mode for the background step whose
try-on step has produced artifact 7. -/
def exC2projDone : Project :=
  { model_image_id := some 5, try_on_result_id := some 7,
    background_person_source := some "try_on_result" }

/-- Output item carrying both a non-empty url and a non-empty fileUrl. -/
def exC3item : OutputItem := { url := some "a", fileUrl := some "b" }

/-- Format 2 status payload whose first output item is exC3item. -/
def exC3resp : TaskStatusResponse :=
  { task_id := some "t", status_field := some "SUCCESS", results := some [exC3item] }

/-- Webhook payload whose first output item is exC3item. -/
def exC3hook : WebhookPayload :=
  { taskId := some "t", status := some "SUCCESS", results := some [exC3item] }

/-- Format 2 payload reporting RUNNING forever, for the timeout scenarios. -/
def exC4running : TaskStatusResponse :=
  { task_id := some "rh1", status_field := some "RUNNING" }

/-- Submission environment whose uploads and creation succeed but whose
status polls never reach a terminal state. -/
def exC4env : SubmitEnv :=
  { inputs := ["m.png", "c.png"],
    uploadResult := fun _ => some "api/x.png",
    createResp := { task_id := some "rh1", create_status := some "RUNNING" },
    poll := fun _ => exC4running }

/-- Shape A payload matching both the Running rule (code 804) and the
Failed rule (message APIKEY_TASK_STATUS_ERROR) of the claimed
classification. -/
def exC7resp : TaskStatusResponse :=
  { code := some 804, msg := some "APIKEY_TASK_STATUS_ERROR" }

/-- Shape A payload with an unrecognised code and message pair. -/
def exC8resp : TaskStatusResponse :=
  { code := some 500, msg := some "oops" }

/-- Freshly created project: the database defaults of the pipeline run
flags (models/project.py lines 156-157). -/
def exC9proj : Project := {}

/-- Task already in RUNNING state, for the duplicate-submission scenario. -/
def exC10task : TaskRec := { status := JobStatus.running }

/-- Environment for the duplicate-submission scenario (never reached). -/
def exC10env : SubmitEnv :=
  { inputs := [], uploadResult := fun _ => none, createResp := {}, poll := fun _ => {} }

/-- C1, counterexample: a Shape B payload with status SUCCESS and a
non-empty errorMessage is classified SUCCESS, not FAILED — the SUCCESS
check of the status property precedes the errorMessage check. -/
theorem C1_counterexample :
    exC1resp._is_format2 = true ∧ truthyStr exC1resp.error_msg = true ∧
    exC1resp.status_field = some "SUCCESS" ∧
    exC1resp.status ≠ "FAILED" ∧ exC1resp.status = "SUCCESS" := by
  decide

/-- C1 (amended): for a Shape B payload with a non-empty errorMessage, the
canonical status is FAILED whenever the status field is not SUCCESS; a
SUCCESS status field wins over errorMessage. -/
theorem C1_theorem (r : TaskStatusResponse) (h1 : r._is_format2 = true)
    (h2 : truthyStr r.error_msg = true) (h3 : r.status_field ≠ some "SUCCESS") :
    r.status = "FAILED" := by
  simp [TaskStatusResponse.status, h1, h2, h3]

/-- C1, witness: a RUNNING payload with errorMessage is classified FAILED. -/
theorem C1_witness : exC1respRunning.status = "FAILED" :=
  C1_theorem exC1respRunning (by decide) (by decide) (by decide)

/-- C3, counterexample: on a first output item carrying both url and
fileUrl, the polling-path normalizer records the url value while the
webhook path records the fileUrl value — the two extraction orders are
opposite, refuting that the webhook applies the same logic. -/
theorem C3_counterexample :
    truthyStr exC3item.url = true ∧ truthyStr exC3item.fileUrl = true ∧
    exC3resp.result_url = some "a" ∧
    webhookNewResultUrl exC3hook none = some "b" ∧
    exC3item.url ≠ exC3item.fileUrl := by
  decide

/-- C3 (amended): on a first output item with both fields non-empty, the
polling-path normalizer records the url value, but the webhook path
prefers fileUrl and records the fileUrl value. -/
theorem C3_theorem (r : TaskStatusResponse) (w : WebhookPayload) (o : OutputItem)
    (rest : List OutputItem) (prev : Option String)
    (hr : r.outputs = o :: rest) (hw : webhookOutputs w = o :: rest)
    (hu : truthyStr o.url = true) (hf : truthyStr o.fileUrl = true) :
    r.result_url = o.url ∧ webhookNewResultUrl w prev = o.fileUrl := by
  constructor
  · rw [TaskStatusResponse.result_url, hr]
    simp [resultUrlFromOutputs, hu]
  · rw [webhookNewResultUrl, hw]
    simp [pyOrStr, hf]

/-- C3, witness: the amended statement at the concrete payloads. -/
theorem C3_witness :
    exC3resp.result_url = exC3item.url ∧
    webhookNewResultUrl exC3hook none = exC3item.fileUrl :=
  C3_theorem exC3resp exC3hook exC3item [] none (by decide) (by decide)
    (by decide) (by decide)

/-- C7, counterexample: the Shape A payload with code 804 and message
APIKEY_TASK_STATUS_ERROR is classified FAILED, while the claimed rule
code 804 implies Running demands RUNNING — the failure check precedes the
running check. -/
theorem C7_counterexample :
    exC7resp._is_format2 = false ∧ exC7resp.code = some 804 ∧
    exC7resp.status ≠ "RUNNING" ∧ exC7resp.status = "FAILED" := by
  decide

/-- C7 (amended): Shape A classification is an ordered cascade — code 0
gives Success; otherwise code 805 or message APIKEY_TASK_STATUS_ERROR
gives Failed; otherwise code 804, message TASK_RUNNING, or an absent
code and message pair gives Running. -/
theorem C7_theorem (r : TaskStatusResponse) (h : r._is_format2 = false) :
    (r.code = some 0 → r.status = "SUCCESS") ∧
    (r.code ≠ some 0 → r.code = some 805 ∨ r.msg = some "APIKEY_TASK_STATUS_ERROR" →
      r.status = "FAILED") ∧
    (r.code ≠ some 0 → r.code ≠ some 805 → r.msg ≠ some "APIKEY_TASK_STATUS_ERROR" →
      r.code = some 804 ∨ r.msg = some "TASK_RUNNING" ∨ (r.code = none ∧ r.msg = none) →
      r.status = "RUNNING") := by
  refine ⟨fun h0 => ?_, fun h0 h1 => ?_, fun h0 h1 h2 h3 => ?_⟩
  · simp [TaskStatusResponse.status, TaskStatusResponse.success, h, h0]
  · rcases h1 with h1 | h1 <;>
      simp [TaskStatusResponse.status, TaskStatusResponse.success,
        TaskStatusResponse.is_failed, h, h0, h1]
  · rcases h3 with h3 | h3 | ⟨h3, h4⟩
    · simp [TaskStatusResponse.status, TaskStatusResponse.success,
        TaskStatusResponse.is_failed, TaskStatusResponse.is_running,
        h, h0, h1, h2, h3]
    · simp [TaskStatusResponse.status, TaskStatusResponse.success,
        TaskStatusResponse.is_failed, TaskStatusResponse.is_running,
        h, h0, h1, h2, h3]
    · simp [TaskStatusResponse.status, TaskStatusResponse.success,
        TaskStatusResponse.is_failed, TaskStatusResponse.is_running,
        h, h0, h1, h2, h3, h4]

/-- C7, witness: the cascade at the payload with code 804 only. -/
theorem C7_witness :
    TaskStatusResponse.status { code := some 804 } = "RUNNING" :=
  (C7_theorem { code := some 804 } (by decide)).2.2 (by decide) (by decide)
    (by decide) (Or.inl (by decide))

/-- C8, counterexample: a Shape A payload with an unrecognised code and
message is classified UNKNOWN, outside the claimed three-value set. -/
theorem C8_counterexample :
    exC8resp.status = "UNKNOWN" ∧
    ¬(exC8resp.status = "SUCCESS" ∨ exC8resp.status = "RUNNING" ∨
      exC8resp.status = "FAILED") := by
  decide

/-- C8 (amended): the canonical status is always one of SUCCESS, FAILED,
RUNNING or UNKNOWN, and a Shape B (format 2) payload never yields
UNKNOWN. -/
theorem C8_theorem (r : TaskStatusResponse) :
    (r.status = "SUCCESS" ∨ r.status = "FAILED" ∨ r.status = "RUNNING" ∨
      r.status = "UNKNOWN") ∧
    (r._is_format2 = true → r.status ≠ "UNKNOWN") := by
  constructor
  · unfold TaskStatusResponse.status
    repeat' split
    all_goals simp
  · intro h
    unfold TaskStatusResponse.status
    rw [h]
    simp only [if_true]
    repeat' split
    all_goals decide

/-- C8, witness: the format 2 conjunct at a concrete QUEUED payload. -/
theorem C8_witness :
    TaskStatusResponse.status { task_id := some "t", status_field := some "QUEUED" } ≠
      "UNKNOWN" :=
  (C8_theorem { task_id := some "t", status_field := some "QUEUED" }).2 (by decide)

/-- C9, counterexample: cancel_pipeline sets cancelRequested on a freshly
created project whose run is not active, so cancelRequested transitions
false to true while active is false. -/
theorem C9_counterexample :
    exC9proj.pipeline_active = false ∧ exC9proj.pipeline_cancel_requested = false ∧
    (cancel_pipeline exC9proj).pipeline_cancel_requested = true ∧
    (cancel_pipeline exC9proj).pipeline_active = false := by
  decide

/-- C9 (amended): cancel_pipeline sets cancelRequested unconditionally,
leaving active unchanged — in particular also while active is false — and
start_pipeline sets active and resets cancelRequested. -/
theorem C9_theorem (p : Project) (chain : Bool) (step : String) :
    (cancel_pipeline p).pipeline_cancel_requested = true ∧
    (cancel_pipeline p).pipeline_active = p.pipeline_active ∧
    (start_pipeline_marks p chain step).pipeline_active = true ∧
    (start_pipeline_marks p chain step).pipeline_cancel_requested = false :=
  ⟨rfl, rfl, rfl, rfl⟩

/-- C10: a submit-and-poll invocation on a task that is not Pending
returns the task unchanged and performs no remote call. -/
theorem C10_theorem (t : TaskRec) (env : SubmitEnv) (timeout : Nat)
    (h : t.status ≠ JobStatus.pending) :
    submit_and_poll (some t) env timeout = (some t, []) := by
  simp [submit_and_poll, h]

/-- C10, witness: the duplicate invocation on a RUNNING task is a no-op. -/
theorem C10_witness :
    submit_and_poll (some exC10task) exC10env 300 = (some exC10task, []) :=
  C10_theorem exC10task exC10env 300 (by decide)

/-- The backward scan of _find_upstream_result_id returns the result id of
the first scanned step whose output type matches and whose result id is
truthy — an extensional nearest-match characterisation. -/
theorem scanUpstream_eq_find (p : Project) (t : String) (l : List String) :
    scanUpstream p t l =
      (l.find? (fun s => (_STEP_OUTPUT_TYPE s == some t) &&
          truthyId (_result_id_for_step p s))).bind
        (fun s => _result_id_for_step p s) := by
  induction l with
  | nil => simp [scanUpstream]
  | cons a rest ih =>
    by_cases h1 : _STEP_OUTPUT_TYPE a = some t
    · by_cases h2 : truthyId (_result_id_for_step p a) = true
      · simp [scanUpstream, List.find?, h1, h2]
      · simp only [Bool.not_eq_true] at h2
        simp [scanUpstream, List.find?, h1, h2, ih]
    · have hb : (_STEP_OUTPUT_TYPE a == some t) = false := by
        simp [h1]
      simp [scanUpstream, List.find?, h1, hb, ih]

/-- C2, counterexample: the background step of exC2proj is in upstream
mode, a base asset exists, the preceding try-on step has no artifact, and
resolve returns null instead of falling back to the base asset. -/
theorem C2_counterexample :
    personSourceMode exC2proj "background" = Except.ok (some "upstream") ∧
    truthyId exC2proj.model_image_id = true ∧
    _resolve_person_source_id exC2proj ["try_on", "background"] "background" =
      Except.ok none := by
  exact ⟨rfl, by decide, rfl⟩

/-- C2 (amended): in upstream mode, resolve returns the result id of the
nearest preceding matching-type step that has a truthy artifact when a
matching-type upstream step exists (null when none of them has an
artifact yet, even if a base asset exists), and falls back to the base
asset id only when no matching-type upstream step exists. -/
theorem C2_theorem (p : Project) (steps : List String) (step t : String)
    (hm : personSourceMode p step = Except.ok (some "upstream"))
    (ht : _STEP_PERSON_INPUT_TYPE step = some t) :
    _resolve_person_source_id p steps step = Except.ok
      (if _has_upstream_step steps step then
        (((steps.take (steps.indexOf step)).reverse.find?
            (fun prev => (_STEP_OUTPUT_TYPE prev == some t) &&
              truthyId (_result_id_for_step p prev))).bind
          (fun prev => _result_id_for_step p prev))
      else p.model_image_id) := by
  by_cases hu : _has_upstream_step steps step = true
  · have hin : step ∈ steps := by
      by_contra hni
      rw [_has_upstream_step, ht] at hu
      simp [hni] at hu
    rw [_resolve_person_source_id, hm]
    simp [hu, _find_upstream_result_id, ht, hin, scanUpstream_eq_find]
  · simp only [Bool.not_eq_true] at hu
    rw [_resolve_person_source_id, hm]
    simp [hu]

/-- C2, witness: the amended statement at a project whose try-on step has
produced artifact 7. -/
theorem C2_witness :
    _resolve_person_source_id exC2projDone ["try_on", "background"] "background" =
      Except.ok
        (if _has_upstream_step ["try_on", "background"] "background" then
          (((["try_on", "background"].take
              (["try_on", "background"].indexOf "background")).reverse.find?
              (fun prev => (_STEP_OUTPUT_TYPE prev == some "image") &&
                truthyId (_result_id_for_step exC2projDone prev))).bind
            (fun prev => _result_id_for_step exC2projDone prev))
        else exC2projDone.model_image_id) :=
  C2_theorem exC2projDone ["try_on", "background"] "background" "image"
    rfl (by decide)

/-- When every poll response is non-terminal, the polling loop exhausts
its budget as timedOut and every recorded remote call is a status poll. -/
theorem waitTrace_nonterminal (poll : Nat → TaskStatusResponse)
    (h : ∀ i, isSuccessStatusStr (poll i).status = false ∧
      isFailedStatusStr (poll i).status = false) :
    ∀ (fuel i : Nat), (waitTrace poll fuel i).1 = PollOutcome.timedOut ∧
      ∀ c ∈ (waitTrace poll fuel i).2, ∃ j, c = RemoteCall.pollStatus j := by
  intro fuel
  induction fuel with
  | zero => intro i; simp [waitTrace]
  | succ n ih =>
    intro i
    simp only [waitTrace, (h i).1, (h i).2, Bool.or_self, Bool.false_eq_true, if_false]
    refine ⟨(ih (i + 1)).1, fun c hc => ?_⟩
    rcases List.mem_cons.mp hc with rfl | hc
    · exact ⟨i, rfl⟩
    · exact (ih (i + 1)).2 c hc

/-- C4, counterexample: with uploads and creation succeeding and every
poll non-terminal, polling times out and the caller marks the job Failed
with the fixed message, but no remote cancel appears in the effect trace
— the except TimeoutError branch of submit_and_poll_task issues none. -/
theorem C4_counterexample :
    wait_for_completion exC4env.poll 3 300 = PollOutcome.timedOut ∧
    (submit_and_poll (some ({} : TaskRec)) exC4env 300).1 =
      some { status := JobStatus.failed, runninghub_task_id := some "rh1",
             error_message := some "Timeout failed (1h)" } ∧
    (submit_and_poll (some ({} : TaskRec)) exC4env 300).2.all
      (fun c => !c.isCancel) = true := by
  exact ⟨rfl, rfl, rfl⟩

/-- C4 (amended): when no terminal status is seen before the timeout,
polling stops as timedOut and submit_and_poll_task marks the job Failed
with the fixed diagnostic message, issuing no remote cancel at all (the
best-effort cancel exists only in the Celery path of ai_tasks.py, not in
this caller). -/
theorem C4_theorem (t : TaskRec) (env : SubmitEnv) (timeout : Nat)
    (hp : t.status = JobStatus.pending)
    (hup : ∀ f ∈ env.inputs, truthyStr (env.uploadResult f) = true)
    (hcr : env.createResp.success = true)
    (hpoll : ∀ i, isSuccessStatusStr (env.poll i).status = false ∧
      isFailedStatusStr (env.poll i).status = false) :
    wait_for_completion env.poll 3 timeout = PollOutcome.timedOut ∧
    (submit_and_poll (some t) env timeout).1 =
      some { t with
               status := JobStatus.failed,
               runninghub_task_id := env.createResp.task_id,
               error_message := some "Timeout failed (1h)" } ∧
    ∀ c ∈ (submit_and_poll (some t) env timeout).2, c.isCancel = false := by
  obtain ⟨ho, hcalls⟩ := waitTrace_nonterminal env.poll hpoll (pollIterations 3 timeout) 0
  have hany : env.inputs.any (fun f => !truthyStr (env.uploadResult f)) = false := by
    rw [List.any_eq_false]
    intro f hf
    simp [hup f hf]
  rcases hwt : waitTrace env.poll (pollIterations 3 timeout) 0 with ⟨o, cs⟩
  rw [hwt] at ho hcalls
  simp only at ho
  subst ho
  have hred : submit_and_poll (some t) env timeout =
      (some { t with
                status := JobStatus.failed,
                runninghub_task_id := env.createResp.task_id,
                error_message := some "Timeout failed (1h)" },
       (env.inputs.map RemoteCall.upload ++ [RemoteCall.createTask]) ++ cs) := by
    simp only [submit_and_poll, hp, hany, hcr, hwt]
    simp
  refine ⟨?_, ?_, ?_⟩
  · rw [wait_for_completion, hwt]
  · rw [hred]
  · rw [hred]
    intro c hc
    simp only [List.mem_append, List.mem_map, List.mem_singleton] at hc
    rcases hc with (⟨f, _, rfl⟩ | rfl) | hc
    · rfl
    · rfl
    · obtain ⟨j, rfl⟩ := hcalls c hc
      rfl

/-- C4, witness: the amended statement at the concrete environment. -/
theorem C4_witness :
    wait_for_completion exC4env.poll 3 300 = PollOutcome.timedOut ∧
    (submit_and_poll (some ({} : TaskRec)) exC4env 300).1 =
      some { ({} : TaskRec) with
               status := JobStatus.failed,
               runninghub_task_id := exC4env.createResp.task_id,
               error_message := some "Timeout failed (1h)" } ∧
    ∀ c ∈ (submit_and_poll (some ({} : TaskRec)) exC4env 300).2, c.isCancel = false :=
  C4_theorem {} exC4env 300 rfl (by decide) rfl (fun _i => ⟨rfl, rfl⟩)

/-- When the cancel flag is first observed at the reload before step k and
every earlier step ran normally, the step loop stops at that boundary in
the draft outcome, with exactly the earlier steps having created jobs. -/
theorem pipelineLoop_cancel (cancelAt : Nat → Bool) (exec : String → Except String Unit)
    (lastErr : Option String) :
    ∀ (k : Nat) (l : List String) (i0 : Nat) (jobs : List String),
      k < l.length →
      (∀ j, j < k → cancelAt (i0 + j) = false) →
      cancelAt (i0 + k) = true →
      (∀ s ∈ l.take k, s ≠ "video" ∧ exec s = Except.ok ()) →
      pipelineLoop cancelAt exec lastErr l i0 jobs =
        { status := ProjStatus.draft, pipeline_active := false,
          pipeline_current_step := none, pipeline_last_error := lastErr,
          jobs := jobs ++ l.take k } := by
  intro k
  induction k with
  | zero =>
    intro l i0 jobs hk _hf hc _he
    cases l with
    | nil => simp at hk
    | cons s rest =>
      rw [Nat.add_zero] at hc
      rw [pipelineLoop, hc]
      simp
  | succ n ih =>
    intro l i0 jobs hk hf hc he
    cases l with
    | nil => simp at hk
    | cons s rest =>
      have hc0 : cancelAt i0 = false := by
        have := hf 0 (Nat.succ_pos n)
        simpa using this
      have hs : s ≠ "video" ∧ exec s = Except.ok () := by
        refine he s ?_
        rw [List.take_succ_cons]
        exact List.mem_cons_self s (rest.take n)
      rw [pipelineLoop, hc0]
      simp only [Bool.false_eq_true, if_false, hs.1, ite_false, hs.2]
      have harg1 : n < rest.length := by simpa using hk
      have harg2 : ∀ j, j < n → cancelAt (i0 + 1 + j) = false := by
        intro j hj
        have := hf (j + 1) (Nat.succ_lt_succ hj)
        rwa [show i0 + (j + 1) = i0 + 1 + j by omega] at this
      have harg3 : cancelAt (i0 + 1 + n) = true := by
        rwa [show i0 + (n + 1) = i0 + 1 + n by omega] at hc
      have harg4 : ∀ s2 ∈ rest.take n, s2 ≠ "video" ∧ exec s2 = Except.ok () := by
        intro s2 hs2
        refine he s2 ?_
        rw [List.take_succ_cons]
        exact List.mem_cons_of_mem s hs2
      rw [ih rest (i0 + 1) (jobs ++ [s]) harg1 harg2 harg3 harg4]
      rw [List.take_succ_cons]
      simp

/-- C5: a cancel request observed at a step boundary stops the loop there
with project status draft, active false, currentStep cleared, and no job
created for that step (only the strictly earlier steps created jobs). -/
theorem C5_theorem (cancelAt : Nat → Bool) (exec : String → Except String Unit)
    (lastErr : Option String) (l : List String) (k : Nat) (hk : k < l.length)
    (hnd : l.Nodup)
    (hf : ∀ j, j < k → cancelAt j = false)
    (hc : cancelAt k = true)
    (he : ∀ s ∈ l.take k, s ≠ "video" ∧ exec s = Except.ok ()) :
    pipelineLoop cancelAt exec lastErr l 0 [] =
      { status := ProjStatus.draft, pipeline_active := false,
        pipeline_current_step := none, pipeline_last_error := lastErr,
        jobs := l.take k } ∧
    l.get ⟨k, hk⟩ ∉ l.take k := by
  constructor
  · have h0 := pipelineLoop_cancel cancelAt exec lastErr k l 0 [] hk
      (by simpa using hf) (by simpa using hc) he
    simpa using h0
  · intro hmem
    have hnd2 : (l.take k ++ l.drop k).Nodup := by
      rwa [List.take_append_drop]
    have hdisj := (List.nodup_append.mp hnd2).2.2
    have hgd : l.get ⟨k, hk⟩ ∈ l.drop k := by
      rw [List.drop_eq_getElem_cons hk]
      exact List.mem_cons_self _ _
    exact hdisj hmem hgd

/-- C5, witness: cancel requested before the second of two steps yields
the draft outcome with only the first job created. -/
theorem C5_witness :
    pipelineLoop (fun i => decide (i = 1)) (fun _ => Except.ok ()) none
        ["try_on", "background"] 0 [] =
      { status := ProjStatus.draft, pipeline_active := false,
        pipeline_current_step := none, pipeline_last_error := none,
        jobs := ["try_on", "background"].take 1 } ∧
    (["try_on", "background"].get ⟨1, by decide⟩) ∉ ["try_on", "background"].take 1 :=
  C5_theorem (fun i => decide (i = 1)) (fun _ => Except.ok ()) none
    ["try_on", "background"] 1 (by decide) (by decide)
    (fun j hj => by
      have hj0 : j = 0 := Nat.lt_one_iff.mp hj
      subst hj0
      rfl)
    rfl
    (fun s hs => by
      simp only [List.take_succ_cons, List.take_zero, List.mem_singleton] at hs
      subst hs
      exact ⟨by decide, rfl⟩)

/-- The first loop of _steps_for_project yields a sublist of the
configured order. -/
theorem configLoop_sublist (en : String → Bool) (l : List String) :
    ∀ seen : List String, (configLoop en seen l).Sublist l := by
  induction l with
  | nil => intro seen; simp [configLoop]
  | cons a rest ih =>
    intro seen
    rw [configLoop]
    split
    · exact (ih (a :: seen)).cons₂ a
    · exact (ih seen).cons a

/-- Membership in the first loop of _steps_for_project: exactly the
enabled configured steps not already seen. -/
theorem configLoop_mem (en : String → Bool) (l : List String) :
    ∀ (seen : List String) (s : String),
      s ∈ configLoop en seen l ↔ s ∈ l ∧ en s = true ∧ s ∉ seen := by
  induction l with
  | nil => intro seen s; simp [configLoop]
  | cons a rest ih =>
    intro seen s
    rw [configLoop]
    split
    case isTrue h =>
      by_cases hsa : s = a
      · subst hsa
        simp [h.1, h.2]
      · rw [List.mem_cons]
        simp only [hsa, false_or]
        rw [ih (a :: seen) s, List.mem_cons]
        simp [hsa]
    case isFalse h =>
      rw [ih seen s, List.mem_cons]
      constructor
      · rintro ⟨h1, h2, h3⟩
        exact ⟨Or.inr h1, h2, h3⟩
      · rintro ⟨h1 | h1, h2, h3⟩
        · subst h1
          exact absurd ⟨h2, h3⟩ h
        · exact ⟨h1, h2, h3⟩

/-- The first loop of _steps_for_project never emits duplicates. -/
theorem configLoop_nodup (en : String → Bool) (l : List String) :
    ∀ seen : List String, (configLoop en seen l).Nodup := by
  induction l with
  | nil => intro seen; simp [configLoop]
  | cons a rest ih =>
    intro seen
    rw [configLoop]
    split
    case isTrue h =>
      refine List.nodup_cons.mpr ⟨?_, ih (a :: seen)⟩
      intro hmem
      exact ((configLoop_mem en rest (a :: seen) a).mp hmem).2.2
        (List.mem_cons_self a seen)
    case isFalse h => exact ih seen

/-- An enabled step name is one of the three canonical step names. -/
theorem enabledFor_mem_base (p : Project) (s : String) (h : enabledFor p s = true) :
    s ∈ _BASE_STEP_ORDER := by
  rw [enabledFor] at h
  split_ifs at h with h1 h2 h3
  · subst h1; decide
  · subst h2; decide
  · subst h3; decide

/-- C6: for every project, the step order is duplicate-free, contains
exactly the enabled steps, preserves the configured relative order (the
kept configured part is a sublist of the stored order), and appends the
newly enabled steps absent from the stored order in canonical order. -/
theorem C6_theorem (p : Project) :
    (_steps_for_project p).Nodup ∧
    (∀ s, s ∈ _steps_for_project p ↔ enabledFor p s = true) ∧
    (∀ cfg, p.workflow_steps = some cfg → cfg ≠ [] →
      ∃ pre post, _steps_for_project p = pre ++ post ∧ pre.Sublist cfg ∧
        post.Sublist _BASE_STEP_ORDER ∧ ∀ s ∈ post, s ∉ cfg) := by
  have hbase : _BASE_STEP_ORDER.Nodup := by decide
  rcases hw : p.workflow_steps with _ | ⟨_ | ⟨c, cs⟩⟩
  · refine ⟨?_, ?_, ?_⟩
    · simp only [_steps_for_project, hw, _default_steps_for_project]
      exact hbase.filter _
    · intro s
      simp only [_steps_for_project, hw, _default_steps_for_project, List.mem_filter]
      exact ⟨fun h => h.2, fun h => ⟨enabledFor_mem_base p s h, h⟩⟩
    · intro cfg hcfg
      simp at hcfg
  · refine ⟨?_, ?_, ?_⟩
    · simp only [_steps_for_project, hw, _default_steps_for_project]
      exact hbase.filter _
    · intro s
      simp only [_steps_for_project, hw, _default_steps_for_project, List.mem_filter]
      exact ⟨fun h => h.2, fun h => ⟨enabledFor_mem_base p s h, h⟩⟩
    · intro cfg hcfg hne
      rw [Option.some.injEq] at hcfg
      exact absurd hcfg.symm hne
  · have hsteps : _steps_for_project p =
        configLoop (enabledFor p) [] (c :: cs) ++
          _BASE_STEP_ORDER.filter
            (fun s => decide (enabledFor p s = true ∧
              s ∉ configLoop (enabledFor p) [] (c :: cs))) := by
      simp only [_steps_for_project, hw]
    have hLmem : ∀ s, s ∈ configLoop (enabledFor p) [] (c :: cs) ↔
        s ∈ c :: cs ∧ enabledFor p s = true := by
      intro s
      rw [configLoop_mem]
      simp
    have hFmem : ∀ s, s ∈ _BASE_STEP_ORDER.filter
        (fun s => decide (enabledFor p s = true ∧
          s ∉ configLoop (enabledFor p) [] (c :: cs))) ↔
        s ∈ _BASE_STEP_ORDER ∧ enabledFor p s = true ∧
          s ∉ configLoop (enabledFor p) [] (c :: cs) := by
      intro s
      simp [List.mem_filter, and_assoc]
    refine ⟨?_, ?_, ?_⟩
    · rw [hsteps]
      refine (configLoop_nodup _ _ _).append (hbase.filter _) ?_
      intro a haL haF
      exact ((hFmem a).mp haF).2.2 haL
    · intro s
      rw [hsteps, List.mem_append, hLmem, hFmem]
      constructor
      · rintro (⟨_, h2⟩ | ⟨_, h2, _⟩) <;> exact h2
      · intro hen
        by_cases hL : s ∈ configLoop (enabledFor p) [] (c :: cs)
        · left
          exact (hLmem s).mp hL
        · right
          exact ⟨enabledFor_mem_base p s hen, hen, hL⟩
    · intro cfg hcfg hne
      rw [Option.some.injEq] at hcfg
      subst hcfg
      refine ⟨configLoop (enabledFor p) [] (c :: cs),
        _BASE_STEP_ORDER.filter
          (fun s => decide (enabledFor p s = true ∧
            s ∉ configLoop (enabledFor p) [] (c :: cs))),
        hsteps, configLoop_sublist _ _ _, List.filter_sublist _, ?_⟩
      intro s hsF hscfg
      exact ((hFmem s).mp hsF).2.2
        ((hLmem s).mpr ⟨hscfg, ((hFmem s).mp hsF).2.1⟩)

/-- C6, witness: the sublist decomposition at a two-step stored order with
all three steps enabled. -/
theorem C6_witness :
    ∃ pre post,
      _steps_for_project
        { enable_try_on := true, enable_background := true, enable_video := true,
          workflow_steps := some ["background", "try_on"] } = pre ++ post ∧
      pre.Sublist ["background", "try_on"] ∧
      post.Sublist _BASE_STEP_ORDER ∧ ∀ s ∈ post, s ∉ ["background", "try_on"] :=
  (C6_theorem
    { enable_try_on := true, enable_background := true, enable_video := true,
      workflow_steps := some ["background", "try_on"] }).2.2
    ["background", "try_on"] rfl (by decide)

end MorphShop
